import Mathlib

/-!
Verification of the asusctl core libraries: a shallow embedding of the
Aura keyboard-LED encoding (rog-aura/src/builtin_modes.rs), the AniMe
matrix packet codec and animation scheduler (rog-anime/src/data.rs),
and the fan-curve profile store (rog-profiles/src/lib.rs), together
with theorems checking the specified properties of those operations.

Machine integers (u8, usize, u64) are modelled as Nat: every operation
verified here only copies, compares or adds small bounded values, so no
wrap-around can occur. Rust Duration values are modelled as Nat
nanoseconds; Duration addition, comparison and division by 2 agree with
that model. Fallible Rust functions returning Result are modelled with
Except.
-/

namespace Asusctl

/-! ## rog-aura: builtin_modes.rs data model -/

/-- Embedding of `LedBrightness` (rog-aura/src/builtin_modes.rs). -/
inductive LedBrightness
  | Off
  | Low
  | Med
  | High
  deriving DecidableEq, Repr, Fintype

namespace LedBrightness

/-- Embedding of `LedBrightness::next`. -/
def next : LedBrightness → LedBrightness
  | .Off => .Low
  | .Low => .Med
  | .Med => .High
  | .High => .Off

/-- Embedding of `LedBrightness::prev`. -/
def prev : LedBrightness → LedBrightness
  | .Off => .High
  | .Low => .Off
  | .Med => .Low
  | .High => .Med

end LedBrightness

/-- Embedding of `Colour` (r, g, b bytes). -/
structure Colour where
  r : Nat
  g : Nat
  b : Nat
  deriving DecidableEq, Repr

/-- Embedding of `Speed`. -/
inductive Speed
  | Low
  | Med
  | High
  deriving DecidableEq, Repr, Fintype

/-- Discriminant of `Speed` as declared in the Rust enum
(`Low = 0xe1, Med = 0xeb, High = 0xf5`); this is the value produced
by `speed as u8`. -/
def Speed.code : Speed → Nat
  | .Low => 0xe1
  | .Med => 0xeb
  | .High => 0xf5

/-- Embedding of `Direction`. -/
inductive Direction
  | Right
  | Left
  | Up
  | Down
  deriving DecidableEq, Repr, Fintype

/-- Discriminant of `Direction` (`Right = 0, Left = 1, Up = 2, Down = 3`). -/
def Direction.code : Direction → Nat
  | .Right => 0
  | .Left => 1
  | .Up => 2
  | .Down => 3

/-- Embedding of `AuraZone`. -/
inductive AuraZone
  | None
  | Key1
  | Key2
  | Key3
  | Key4
  | Logo
  | BarLeft
  | BarRight
  deriving DecidableEq, Repr, Fintype

/-- Discriminant of `AuraZone` (`None = 0 .. BarRight = 7`). -/
def AuraZone.code : AuraZone → Nat
  | .None => 0
  | .Key1 => 1
  | .Key2 => 2
  | .Key3 => 3
  | .Key4 => 4
  | .Logo => 5
  | .BarLeft => 6
  | .BarRight => 7

/-- Embedding of `AuraModeNum`, the 12 factory aura modes. -/
inductive AuraModeNum
  | Static
  | Breathe
  | Strobe
  | Rainbow
  | Star
  | Rain
  | Highlight
  | Laser
  | Ripple
  | Pulse
  | Comet
  | Flash
  deriving DecidableEq, Repr, Fintype

namespace AuraModeNum

/-- Discriminant of `AuraModeNum` as declared in the Rust enum
(`Static = 0, ..., Ripple = 8, Pulse = 10, Comet = 11, Flash = 12`);
this is the value produced by `mode as u8`. Code 9 is skipped. -/
def code : AuraModeNum → Nat
  | .Static => 0
  | .Breathe => 1
  | .Strobe => 2
  | .Rainbow => 3
  | .Star => 4
  | .Rain => 5
  | .Highlight => 6
  | .Laser => 7
  | .Ripple => 8
  | .Pulse => 10
  | .Comet => 11
  | .Flash => 12

/-- Embedding of `impl From<u8> for AuraModeNum`: any unlisted code
falls through to `Static`. -/
def ofU8 : Nat → AuraModeNum
  | 1 => .Breathe
  | 2 => .Strobe
  | 3 => .Rainbow
  | 4 => .Star
  | 5 => .Rain
  | 6 => .Highlight
  | 7 => .Laser
  | 8 => .Ripple
  | 10 => .Pulse
  | 11 => .Comet
  | 12 => .Flash
  | _ => .Static

/-- Embedding of `impl From<&AuraModeNum> for &str` (display names). -/
def name : AuraModeNum → String
  | .Static => "Static"
  | .Breathe => "Breathe"
  | .Strobe => "Strobe"
  | .Rainbow => "Rainbow"
  | .Star => "Stars"
  | .Rain => "Rain"
  | .Highlight => "Highlight"
  | .Laser => "Laser"
  | .Ripple => "Ripple"
  | .Pulse => "Pulse"
  | .Comet => "Comet"
  | .Flash => "Flash"

/-- Embedding of `impl From<&str> for AuraModeNum`: any unlisted name
falls through to `Static`. -/
def ofName (s : String) : AuraModeNum :=
  if s = "Breathe" then .Breathe
  else if s = "Strobe" then .Strobe
  else if s = "Rainbow" then .Rainbow
  else if s = "Stars" then .Star
  else if s = "Rain" then .Rain
  else if s = "Highlight" then .Highlight
  else if s = "Laser" then .Laser
  else if s = "Ripple" then .Ripple
  else if s = "Pulse" then .Pulse
  else if s = "Comet" then .Comet
  else if s = "Flash" then .Flash
  else .Static

end AuraModeNum

/-- Embedding of `AuraEffect`. -/
structure AuraEffect where
  mode : AuraModeNum
  zone : AuraZone
  colour1 : Colour
  colour2 : Colour
  speed : Speed
  direction : Direction
  deriving DecidableEq, Repr

/-- Message length constant `LED_MSG_LEN` of rog-aura. -/
def LED_MSG_LEN : Nat := 17

/-- Embedding of `impl From<&AuraEffect> for [u8; LED_MSG_LEN]`: a zeroed
17-byte buffer with bytes 0-8 and 10-12 assigned from the effect. -/
def AuraEffect.toBytes (aura : AuraEffect) : List Nat :=
  [0x5d, 0xb3, aura.zone.code, aura.mode.code,
   aura.colour1.r, aura.colour1.g, aura.colour1.b,
   aura.speed.code, aura.direction.code, 0,
   aura.colour2.r, aura.colour2.g, aura.colour2.b,
   0, 0, 0, 0]

end Asusctl

namespace Asusctl

/-! ## Theorems for the Aura LED model -/

/-- C10: for every LedBrightness value b, prev (next b) = b and
next (prev b) = b; next cycles Off → Low → Med → High → Off, so next and
prev are mutually inverse bijections on the four brightness levels. -/
theorem led_brightness_next_prev_inverse :
    (∀ b : LedBrightness, b.next.prev = b) ∧
    (∀ b : LedBrightness, b.prev.next = b) ∧
    LedBrightness.Off.next = LedBrightness.Low ∧
    LedBrightness.Low.next = LedBrightness.Med ∧
    LedBrightness.Med.next = LedBrightness.High ∧
    LedBrightness.High.next = LedBrightness.Off := by
  decide

/-- C4: mode-to-code and mode-to-name conversions round-trip for all 12
modes (hence are injective, with ofU8 and ofName as left inverses); no
mode has numeric code 9, and decoding 9 only yields the Static fallback
(whose code is 0, not 9), so 9 is never produced nor accepted as the
code of any mode. -/
theorem aura_mode_num_roundtrip :
    (∀ m : AuraModeNum, AuraModeNum.ofU8 m.code = m) ∧
    (∀ m : AuraModeNum, AuraModeNum.ofName m.name = m) ∧
    (∀ m : AuraModeNum, m.code ≠ 9) ∧
    AuraModeNum.ofU8 9 = AuraModeNum.Static ∧
    (AuraModeNum.ofU8 9).code ≠ 9 := by
  decide

/-- C3: the 17-byte encoding of an AuraEffect has the exact fixed layout
(byte 0 = 0x5d, byte 1 = 0xb3, byte 2 = zone code, byte 3 = mode code,
bytes 4..6 = colour1 RGB, byte 7 = speed wire code with Low = 0xe1,
Med = 0xeb, High = 0xf5, byte 8 = direction code, byte 9 = 0,
bytes 10..12 = colour2 RGB, bytes 13..16 = 0); being a function of the
effect value it is deterministic, and changing only the zone (resp. only
the mode) changes only byte 2 (resp. byte 3). -/
theorem aura_effect_encoding_layout (e : AuraEffect) (z : AuraZone)
    (m : AuraModeNum) :
    e.toBytes.length = LED_MSG_LEN ∧
    e.toBytes.getD 0 0 = 0x5d ∧
    e.toBytes.getD 1 0 = 0xb3 ∧
    e.toBytes.getD 2 0 = e.zone.code ∧
    e.toBytes.getD 3 0 = e.mode.code ∧
    e.toBytes.getD 4 0 = e.colour1.r ∧
    e.toBytes.getD 5 0 = e.colour1.g ∧
    e.toBytes.getD 6 0 = e.colour1.b ∧
    e.toBytes.getD 7 0 = e.speed.code ∧
    Speed.code Speed.Low = 0xe1 ∧
    Speed.code Speed.Med = 0xeb ∧
    Speed.code Speed.High = 0xf5 ∧
    e.toBytes.getD 8 0 = e.direction.code ∧
    e.toBytes.getD 9 0 = 0 ∧
    e.toBytes.getD 10 0 = e.colour2.r ∧
    e.toBytes.getD 11 0 = e.colour2.g ∧
    e.toBytes.getD 12 0 = e.colour2.b ∧
    e.toBytes.getD 13 0 = 0 ∧
    e.toBytes.getD 14 0 = 0 ∧
    e.toBytes.getD 15 0 = 0 ∧
    e.toBytes.getD 16 0 = 0 ∧
    ({ e with zone := z } : AuraEffect).toBytes = e.toBytes.set 2 z.code ∧
    ({ e with mode := m } : AuraEffect).toBytes = e.toBytes.set 3 m.code := by
  and_intros <;> rfl

/-- Sanity check mirroring the Rust unit test `check_led_static_packet`. -/
example :
    (AuraEffect.toBytes
      ⟨.Static, .None, ⟨0xff, 0x11, 0xdd⟩, ⟨0xa6, 0, 0⟩, .Med, .Right⟩) =
    [0x5d, 0xb3, 0x0, 0x0, 0xff, 0x11, 0xdd, 0xeb, 0x0, 0x0, 0xa6, 0x0,
     0x0, 0x0, 0x0, 0x0, 0x0] := by
  decide

end Asusctl

namespace Asusctl

/-! ## rog-anime: data.rs data model and packet codec -/

/-- Modelled from the spec: rog-anime's error enum lives in
rog-anime/src/error.rs, which is not under src/; the spec's error
taxonomy (§7) names `DataBufferLength` (buffer/variant length mismatch),
`NotSupported` and asset-decode errors. Only `DataBufferLength` is ever
produced by the operations embedded here. -/
inductive AnimeError
  | DataBufferLength
  | NotSupported
  | AssetDecode
  deriving DecidableEq, Repr

/-- Constant `BLOCK_START` of rog-anime/src/data.rs. -/
def BLOCK_START : Nat := 7

/-- Constant `BLOCK_END` of rog-anime/src/data.rs (exclusive). -/
def BLOCK_END : Nat := 634

/-- Constant `PANE_LEN = BLOCK_END - BLOCK_START` (= 627). -/
def PANE_LEN : Nat := BLOCK_END - BLOCK_START

/-- Constant `USB_PREFIX1`. -/
def USB_PREFIX1 : List Nat := [0x5e, 0xc0, 0x02, 0x01, 0x00, 0x73, 0x02]

/-- Constant `USB_PREFIX2`. -/
def USB_PREFIX2 : List Nat := [0x5e, 0xc0, 0x02, 0x74, 0x02, 0x73, 0x02]

/-- Constant `USB_PREFIX3`. -/
def USB_PREFIX3 : List Nat := [0x5e, 0xc0, 0x02, 0xe7, 0x04, 0x73, 0x02]

/-- Embedding of `AnimeType` (the device variant enum). -/
inductive AnimeType
  | GA401
  | GA402
  | GU604
  | Unknown
  deriving DecidableEq, Repr, Fintype

/-- Embedding of `AnimeType::data_length`. -/
def AnimeType.data_length : AnimeType → Nat
  | .GA401 => PANE_LEN * 2
  | .GU604 => PANE_LEN * 3
  | _ => PANE_LEN * 3

/-- Embedding of `AnimeDataBuffer`: a byte vector tagged with the device
variant. -/
structure AnimeDataBuffer where
  data : List Nat
  anime : AnimeType
  deriving DecidableEq, Repr

/-- Embedding of `AnimeDataBuffer::new`: an all-zero buffer of the
variant's data length. -/
def AnimeDataBuffer.new (anime : AnimeType) : AnimeDataBuffer :=
  ⟨List.replicate anime.data_length 0, anime⟩

/-- Embedding of `AnimeDataBuffer::from_vec`. -/
def AnimeDataBuffer.from_vec (anime : AnimeType) (data : List Nat) :
    Except AnimeError AnimeDataBuffer :=
  if data.length ≠ anime.data_length then .error .DataBufferLength
  else .ok ⟨data, anime⟩

/-- Model of `buf[start..start+src.len()].copy_from_slice(src)` on a list:
the bytes at positions start..start+src.length are replaced by src.
(The Rust call requires the two ranges to have equal length; every use
below satisfies this.) -/
def copyIntoAt (buf : List Nat) (start : Nat) (src : List Nat) : List Nat :=
  buf.take start ++ src ++ buf.drop (start + src.length)

/-- Model of Rust's slice `chunks(n)`: consecutive chunks of size n, the
last possibly shorter. (Rust panics for n = 0; the guard returns [] there
and no use below passes n = 0.) -/
def chunksOf (n : Nat) (l : List α) : List (List α) :=
  if l.isEmpty ∨ n = 0 then [] else l.take n :: chunksOf n (l.drop n)
termination_by l.length
decreasing_by
  simp only [List.isEmpty_iff, not_or] at *
  cases l with
  | nil => simp_all
  | cons x xs => simp [List.length_drop]; omega

/-- Model of the `for (idx, chunk) in data.chunks(PANE_LEN).enumerate()`
loop of the TryFrom impl: chunk idx is copied into bytes
[BLOCK_START, BLOCK_START + chunk.len()) of buffer idx. (Rust would
panic with more chunks than buffers; the length guard of `try_from`
makes the second arm unreachable.) -/
def writePanes : List (List Nat) → List (List Nat) → List (List Nat)
  | bufs, [] => bufs
  | [], _ :: _ => []
  | buf :: bufs, c :: cs => copyIntoAt buf BLOCK_START c :: writePanes bufs cs

/-- Model of `buffers[i][..7].copy_from_slice(&p)`: the first 7 bytes of
buffer i are replaced by the 7-byte constant p. -/
def writeUsbHeader (bufs : List (List Nat)) (i : Nat) (p : List Nat) :
    List (List Nat) :=
  bufs.set i (copyIntoAt (bufs.getD i []) 0 p)

/-- The packet set type `AnimePacketType = Vec<[u8; 640]>`. -/
abbrev AnimePacketType := List (List Nat)

/-- Embedding of `impl TryFrom<AnimeDataBuffer> for AnimePacketType`:
length check, 2 zeroed 640-byte buffers for GA401 and 3 for the other
variants, panes copied chunk-by-chunk into bytes [7, 634), then the
fixed 7-byte USB prefixes written into packets 0, 1 and (for non-GA401)
2. -/
def AnimePacketType.try_from (anime : AnimeDataBuffer) :
    Except AnimeError AnimePacketType :=
  if anime.data.length ≠ anime.anime.data_length then
    .error .DataBufferLength
  else
    let n : Nat :=
      match anime.anime with
      | .GA401 => 2
      | .GA402 | .GU604 | .Unknown => 3
    let bufs := List.replicate n (List.replicate 640 0)
    let bufs := writePanes bufs (chunksOf PANE_LEN anime.data)
    let bufs := writeUsbHeader bufs 0 USB_PREFIX1
    let bufs := writeUsbHeader bufs 1 USB_PREFIX2
    let bufs :=
      match anime.anime with
      | .GA402 | .GU604 | .Unknown => writeUsbHeader bufs 2 USB_PREFIX3
      | .GA401 => bufs
    .ok bufs

end Asusctl

namespace Asusctl

/-! ## Lemmas about the packet codec -/

theorem chunksOf_eq_def (n : Nat) (l : List α) :
    chunksOf n l =
      if l.isEmpty ∨ n = 0 then [] else l.take n :: chunksOf n (l.drop n) := by
  rw [chunksOf]

theorem chunksOf_step (n : Nat) (hn : n ≠ 0) (l : List α) (hl : l ≠ []) :
    chunksOf n l = l.take n :: chunksOf n (l.drop n) := by
  rw [chunksOf_eq_def]
  simp [hl, hn]

theorem chunksOf_nil (n : Nat) : chunksOf n ([] : List α) = [] := by
  rw [chunksOf_eq_def]; simp

theorem chunksOf_two (n : Nat) (hn : n ≠ 0) (l : List α)
    (h : l.length = 2 * n) :
    chunksOf n l = [l.take n, l.drop n] := by
  have h1 : l ≠ [] := by
    intro he; subst he; simp at h; omega
  have h2 : l.drop n ≠ [] := by
    intro he
    have := congrArg List.length he
    simp at this; omega
  have h3 : (l.drop n).drop n = [] := by
    rw [List.drop_drop]
    apply List.eq_nil_of_length_eq_zero
    simp; omega
  rw [chunksOf_step n hn l h1, chunksOf_step n hn _ h2, h3, chunksOf_nil]
  have : (l.drop n).take n = l.drop n := by
    apply List.take_of_length_le
    simp; omega
  rw [this]

theorem chunksOf_three (n : Nat) (hn : n ≠ 0) (l : List α)
    (h : l.length = 3 * n) :
    chunksOf n l = [l.take n, (l.drop n).take n, l.drop (2 * n)] := by
  have h1 : l ≠ [] := by
    intro he; subst he; simp at h; omega
  have h2 : l.drop n ≠ [] := by
    intro he
    have := congrArg List.length he
    simp at this; omega
  have h3 : (l.drop n).drop n ≠ [] := by
    intro he
    have := congrArg List.length he
    simp at this; omega
  have h4 : ((l.drop n).drop n).drop n = [] := by
    rw [List.drop_drop, List.drop_drop]
    apply List.eq_nil_of_length_eq_zero
    simp; omega
  rw [chunksOf_step n hn l h1, chunksOf_step n hn _ h2,
    chunksOf_step n hn _ h3, h4, chunksOf_nil]
  have h5 : ((l.drop n).drop n).take n = (l.drop n).drop n := by
    apply List.take_of_length_le
    simp; omega
  rw [h5, List.drop_drop]
  have : n + n = 2 * n := by omega
  rw [this]

theorem copyIntoAt_pane (c : List Nat) (hc : c.length = PANE_LEN) :
    copyIntoAt (List.replicate 640 0) BLOCK_START c =
      List.replicate 7 0 ++ (c ++ List.replicate 6 0) := by
  have hc' : c.length = 627 := hc
  simp only [copyIntoAt, BLOCK_START, hc', List.take_replicate,
    List.drop_replicate]
  norm_num [List.append_assoc]

theorem copyIntoAt_head (c rest : List Nat) (p : List Nat)
    (hp : p.length = 7) (hc : c.length = 7) :
    copyIntoAt (c ++ rest) 0 p = p ++ rest := by
  simp only [copyIntoAt, hp, List.take_zero, List.nil_append, Nat.zero_add]
  rw [← hc, List.drop_left]

theorem writePanes_two (z c0 c1 : List Nat) :
    writePanes [z, z] [c0, c1] =
      [copyIntoAt z BLOCK_START c0, copyIntoAt z BLOCK_START c1] := rfl

theorem writePanes_three (z c0 c1 c2 : List Nat) :
    writePanes [z, z, z] [c0, c1, c2] =
      [copyIntoAt z BLOCK_START c0, copyIntoAt z BLOCK_START c1,
       copyIntoAt z BLOCK_START c2] := rfl

theorem writeUsbHeader_zero (b0 : List Nat) (rest : List (List Nat))
    (p : List Nat) :
    writeUsbHeader (b0 :: rest) 0 p = copyIntoAt b0 0 p :: rest := rfl

theorem writeUsbHeader_one (b0 b1 : List Nat) (rest : List (List Nat))
    (p : List Nat) :
    writeUsbHeader (b0 :: b1 :: rest) 1 p =
      b0 :: copyIntoAt b1 0 p :: rest := rfl

theorem writeUsbHeader_two (b0 b1 b2 : List Nat) (rest : List (List Nat))
    (p : List Nat) :
    writeUsbHeader (b0 :: b1 :: b2 :: rest) 2 p =
      b0 :: b1 :: copyIntoAt b2 0 p :: rest := rfl

theorem two_pane_build (d : List Nat) (hd : d.length = 2 * 627) :
    writeUsbHeader (writeUsbHeader
      (writePanes (List.replicate 2 (List.replicate 640 0))
        (chunksOf PANE_LEN d)) 0 USB_PREFIX1) 1 USB_PREFIX2 =
    [USB_PREFIX1 ++ (d.take 627 ++ List.replicate 6 0),
     USB_PREFIX2 ++ (d.drop 627 ++ List.replicate 6 0)] := by
  have hPL : PANE_LEN = 627 := rfl
  have l0 : (d.take 627).length = PANE_LEN := by
    rw [hPL, List.length_take, hd]; norm_num
  have l1 : (d.drop 627).length = PANE_LEN := by
    rw [hPL, List.length_drop, hd]
  rw [hPL, chunksOf_two 627 (by norm_num) d hd]
  show writeUsbHeader (writeUsbHeader
      (writePanes [_, _] _) 0 USB_PREFIX1) 1 USB_PREFIX2 = _
  rw [writePanes_two, copyIntoAt_pane _ l0, copyIntoAt_pane _ l1,
    writeUsbHeader_zero, writeUsbHeader_one,
    copyIntoAt_head _ _ USB_PREFIX1 (by rfl) (by simp),
    copyIntoAt_head _ _ USB_PREFIX2 (by rfl) (by simp)]

theorem three_pane_build (d : List Nat) (hd : d.length = 3 * 627) :
    writeUsbHeader (writeUsbHeader (writeUsbHeader
      (writePanes (List.replicate 3 (List.replicate 640 0))
        (chunksOf PANE_LEN d)) 0 USB_PREFIX1) 1 USB_PREFIX2) 2 USB_PREFIX3 =
    [USB_PREFIX1 ++ (d.take 627 ++ List.replicate 6 0),
     USB_PREFIX2 ++ ((d.drop 627).take 627 ++ List.replicate 6 0),
     USB_PREFIX3 ++ (d.drop (2 * 627) ++ List.replicate 6 0)] := by
  have hPL : PANE_LEN = 627 := rfl
  have l0 : (d.take 627).length = PANE_LEN := by
    rw [hPL, List.length_take, hd]; norm_num
  have l1 : ((d.drop 627).take 627).length = PANE_LEN := by
    rw [hPL, List.length_take, List.length_drop, hd]; norm_num
  have l2 : (d.drop (2 * 627)).length = PANE_LEN := by
    rw [hPL, List.length_drop, hd]
  rw [hPL, chunksOf_three 627 (by norm_num) d hd]
  show writeUsbHeader (writeUsbHeader (writeUsbHeader
      (writePanes [_, _, _] _) 0 USB_PREFIX1) 1 USB_PREFIX2) 2 USB_PREFIX3 = _
  rw [writePanes_three, copyIntoAt_pane _ l0, copyIntoAt_pane _ l1,
    copyIntoAt_pane _ l2, writeUsbHeader_zero, writeUsbHeader_one,
    writeUsbHeader_two,
    copyIntoAt_head _ _ USB_PREFIX1 (by rfl) (by simp),
    copyIntoAt_head _ _ USB_PREFIX2 (by rfl) (by simp),
    copyIntoAt_head _ _ USB_PREFIX3 (by rfl) (by simp)]


theorem two_pane_payload (d : List Nat) (hd : d.length = 2 * 627) :
    ((List.map (fun p => (p.drop BLOCK_START).take PANE_LEN)
      [USB_PREFIX1 ++ (d.take 627 ++ List.replicate 6 0),
       USB_PREFIX2 ++ (d.drop 627 ++ List.replicate 6 0)]).flatten = d) := by
  have l0 : (d.take 627).length = PANE_LEN := by
    rw [List.length_take, hd]; decide
  have l1 : (d.drop 627).length = PANE_LEN := by
    rw [List.length_drop, hd]; decide
  have e1 : (USB_PREFIX1 ++ (d.take 627 ++ List.replicate 6 0)).drop
      BLOCK_START = d.take 627 ++ List.replicate 6 0 := rfl
  have e2 : (USB_PREFIX2 ++ (d.drop 627 ++ List.replicate 6 0)).drop
      BLOCK_START = d.drop 627 ++ List.replicate 6 0 := rfl
  simp only [List.map_cons, List.map_nil, List.flatten_cons, List.flatten_nil,
    List.append_nil, e1, e2, List.take_left' l0, List.take_left' l1]
  exact List.take_append_drop 627 d

theorem three_pane_payload (d : List Nat) (hd : d.length = 3 * 627) :
    ((List.map (fun p => (p.drop BLOCK_START).take PANE_LEN)
      [USB_PREFIX1 ++ (d.take 627 ++ List.replicate 6 0),
       USB_PREFIX2 ++ ((d.drop 627).take 627 ++ List.replicate 6 0),
       USB_PREFIX3 ++ (d.drop (2 * 627) ++ List.replicate 6 0)]).flatten
      = d) := by
  have l0 : (d.take 627).length = PANE_LEN := by
    rw [List.length_take, hd]; decide
  have l1 : ((d.drop 627).take 627).length = PANE_LEN := by
    rw [List.length_take, List.length_drop, hd]; decide
  have l2 : (d.drop (2 * 627)).length = PANE_LEN := by
    rw [List.length_drop, hd]; decide
  have e1 : (USB_PREFIX1 ++ (d.take 627 ++ List.replicate 6 0)).drop
      BLOCK_START = d.take 627 ++ List.replicate 6 0 := rfl
  have e2 : (USB_PREFIX2 ++ ((d.drop 627).take 627 ++
      List.replicate 6 0)).drop BLOCK_START =
      (d.drop 627).take 627 ++ List.replicate 6 0 := rfl
  have e3 : (USB_PREFIX3 ++ (d.drop (2 * 627) ++ List.replicate 6 0)).drop
      BLOCK_START = d.drop (2 * 627) ++ List.replicate 6 0 := rfl
  simp only [List.map_cons, List.map_nil, List.flatten_cons, List.flatten_nil,
    List.append_nil, e1, e2, e3, List.take_left' l0, List.take_left' l1,
    List.take_left' l2]
  have h23 : (d.drop 627).take 627 ++ d.drop (2 * 627) = d.drop 627 := by
    have h2 : (2 : Nat) * 627 = 627 + 627 := by norm_num
    rw [h2, List.drop_take_append_drop]
  rw [h23]
  exact List.take_append_drop 627 d

theorem pane_lengths_two (d : List Nat) (hd : d.length = 2 * 627) :
    ∀ p ∈ [USB_PREFIX1 ++ (d.take 627 ++ List.replicate 6 0),
           USB_PREFIX2 ++ (d.drop 627 ++ List.replicate 6 0)],
      p.length = 640 := by
  have l0 : (d.take 627).length = 627 := by
    rw [List.length_take, hd]; decide
  have l1 : (d.drop 627).length = 627 := by
    rw [List.length_drop, hd]
  intro p hp
  simp only [List.mem_cons, List.not_mem_nil, or_false] at hp
  rcases hp with rfl | rfl <;>
    simp [USB_PREFIX1, USB_PREFIX2, l0, l1]

theorem pane_lengths_three (d : List Nat) (hd : d.length = 3 * 627) :
    ∀ p ∈ [USB_PREFIX1 ++ (d.take 627 ++ List.replicate 6 0),
           USB_PREFIX2 ++ ((d.drop 627).take 627 ++ List.replicate 6 0),
           USB_PREFIX3 ++ (d.drop (2 * 627) ++ List.replicate 6 0)],
      p.length = 640 := by
  have l0 : (d.take 627).length = 627 := by
    rw [List.length_take, hd]; decide
  have l1 : ((d.drop 627).take 627).length = 627 := by
    rw [List.length_take, List.length_drop, hd]; decide
  have l2 : (d.drop (2 * 627)).length = 627 := by
    rw [List.length_drop, hd]
  intro p hp
  simp only [List.mem_cons, List.not_mem_nil, or_false] at hp
  rcases hp with rfl | rfl | rfl <;>
    simp [USB_PREFIX1, USB_PREFIX2, USB_PREFIX3, l0, l1, l2]

/-- C1: for every device variant and every AnimeDataBuffer whose data
length equals the variant's data_length, conversion to AnimePacketType
succeeds and yields exactly 2 packets of 640 bytes for GA401 and 3 for
GA402, GU604 and Unknown; the first 7 bytes of packets 0, 1 and (if
present) 2 are USB_PREFIX1, USB_PREFIX2 and USB_PREFIX3, and the bytes
[7, 634) of the packets, concatenated in order, are exactly the input
buffer's bytes. -/
theorem anime_packets_structure (a : AnimeDataBuffer)
    (h : a.data.length = a.anime.data_length) :
    ∃ pkts : AnimePacketType,
      AnimePacketType.try_from a = .ok pkts ∧
      pkts.length = (match a.anime with | .GA401 => 2 | _ => 3) ∧
      (∀ p ∈ pkts, p.length = 640) ∧
      pkts.map (fun p => p.take BLOCK_START) =
        (match a.anime with
         | .GA401 => [USB_PREFIX1, USB_PREFIX2]
         | _ => [USB_PREFIX1, USB_PREFIX2, USB_PREFIX3]) ∧
      (pkts.map fun p => (p.drop BLOCK_START).take PANE_LEN).flatten
        = a.data := by
  obtain ⟨d, t⟩ := a
  dsimp only at h ⊢
  cases t with
  | GA401 =>
    have hd : d.length = 2 * 627 := by rw [h]; decide
    refine ⟨[USB_PREFIX1 ++ (d.take 627 ++ List.replicate 6 0),
             USB_PREFIX2 ++ (d.drop 627 ++ List.replicate 6 0)],
      ?_, ?_, pane_lengths_two d hd, ?_, two_pane_payload d hd⟩
    · unfold AnimePacketType.try_from
      dsimp only
      rw [if_neg (not_not_intro h)]
      rw [two_pane_build d hd]
    · rfl
    · rfl
  | GA402 =>
    have hd : d.length = 3 * 627 := by rw [h]; decide
    refine ⟨[USB_PREFIX1 ++ (d.take 627 ++ List.replicate 6 0),
             USB_PREFIX2 ++ ((d.drop 627).take 627 ++ List.replicate 6 0),
             USB_PREFIX3 ++ (d.drop (2 * 627) ++ List.replicate 6 0)],
      ?_, ?_, pane_lengths_three d hd, ?_, three_pane_payload d hd⟩
    · unfold AnimePacketType.try_from
      dsimp only
      rw [if_neg (not_not_intro h)]
      rw [three_pane_build d hd]
    · rfl
    · rfl
  | GU604 =>
    have hd : d.length = 3 * 627 := by rw [h]; decide
    refine ⟨[USB_PREFIX1 ++ (d.take 627 ++ List.replicate 6 0),
             USB_PREFIX2 ++ ((d.drop 627).take 627 ++ List.replicate 6 0),
             USB_PREFIX3 ++ (d.drop (2 * 627) ++ List.replicate 6 0)],
      ?_, ?_, pane_lengths_three d hd, ?_, three_pane_payload d hd⟩
    · unfold AnimePacketType.try_from
      dsimp only
      rw [if_neg (not_not_intro h)]
      rw [three_pane_build d hd]
    · rfl
    · rfl
  | Unknown =>
    have hd : d.length = 3 * 627 := by rw [h]; decide
    refine ⟨[USB_PREFIX1 ++ (d.take 627 ++ List.replicate 6 0),
             USB_PREFIX2 ++ ((d.drop 627).take 627 ++ List.replicate 6 0),
             USB_PREFIX3 ++ (d.drop (2 * 627) ++ List.replicate 6 0)],
      ?_, ?_, pane_lengths_three d hd, ?_, three_pane_payload d hd⟩
    · unfold AnimePacketType.try_from
      dsimp only
      rw [if_neg (not_not_intro h)]
      rw [three_pane_build d hd]
    · rfl
    · rfl

/-- Witness for C1: the all-zero GA401 buffer satisfies the length
hypothesis and the packet-structure conclusion. -/
theorem anime_packets_structure_witness :
    ((AnimeDataBuffer.new .GA401).data.length =
      (AnimeDataBuffer.new .GA401).anime.data_length) ∧
    (∃ pkts : AnimePacketType,
      AnimePacketType.try_from (AnimeDataBuffer.new .GA401) = .ok pkts ∧
      pkts.length =
        (match (AnimeDataBuffer.new .GA401).anime with
         | .GA401 => 2 | _ => 3) ∧
      (∀ p ∈ pkts, p.length = 640) ∧
      pkts.map (fun p => p.take BLOCK_START) =
        (match (AnimeDataBuffer.new .GA401).anime with
         | .GA401 => [USB_PREFIX1, USB_PREFIX2]
         | _ => [USB_PREFIX1, USB_PREFIX2, USB_PREFIX3]) ∧
      (pkts.map fun p => (p.drop BLOCK_START).take PANE_LEN).flatten
        = (AnimeDataBuffer.new .GA401).data) :=
  ⟨by simp [AnimeDataBuffer.new],
   anime_packets_structure (AnimeDataBuffer.new .GA401)
     (by simp [AnimeDataBuffer.new])⟩

theorem from_vec_mismatch (t : AnimeType) (d : List Nat)
    (hne : d.length ≠ t.data_length) :
    AnimeDataBuffer.from_vec t d = .error .DataBufferLength := by
  unfold AnimeDataBuffer.from_vec
  rw [if_pos hne]

theorem from_vec_match (t : AnimeType) (d : List Nat)
    (hl : d.length = t.data_length) :
    AnimeDataBuffer.from_vec t d = .ok ⟨d, t⟩ := by
  unfold AnimeDataBuffer.from_vec
  rw [if_neg (not_not_intro hl)]

theorem try_from_mismatch (t : AnimeType) (d : List Nat)
    (hne : d.length ≠ t.data_length) :
    AnimePacketType.try_from ⟨d, t⟩ = .error .DataBufferLength := by
  unfold AnimePacketType.try_from
  dsimp only
  rw [if_pos hne]

theorem try_from_match (t : AnimeType) (d : List Nat)
    (hl : d.length = t.data_length) :
    ∃ pkts, AnimePacketType.try_from ⟨d, t⟩ = .ok pkts := by
  unfold AnimePacketType.try_from
  dsimp only
  rw [if_neg (not_not_intro hl)]
  exact ⟨_, rfl⟩

theorem data_length_pos (t : AnimeType) : 0 < t.data_length := by
  cases t <;> decide

/-- C2: both from_vec and the packet conversion fail with
DataBufferLength exactly when the data length differs from the
variant's data_length (in particular at the off-by-one lengths
data_length - 1 and data_length + 1), and no error other than
DataBufferLength is ever returned by either operation. -/
theorem anime_buffer_length_error_iff (t : AnimeType) (d : List Nat) :
    (AnimeDataBuffer.from_vec t d = .error .DataBufferLength ↔
      d.length ≠ t.data_length) ∧
    (AnimePacketType.try_from ⟨d, t⟩ = .error .DataBufferLength ↔
      d.length ≠ t.data_length) ∧
    (∀ e : AnimeError, AnimeDataBuffer.from_vec t d ≠ .error e ∨
      e = .DataBufferLength) ∧
    (∀ e : AnimeError, AnimePacketType.try_from ⟨d, t⟩ ≠ .error e ∨
      e = .DataBufferLength) ∧
    AnimeDataBuffer.from_vec t (List.replicate (t.data_length - 1) 0) =
      .error .DataBufferLength ∧
    AnimeDataBuffer.from_vec t (List.replicate (t.data_length + 1) 0) =
      .error .DataBufferLength ∧
    AnimePacketType.try_from ⟨List.replicate (t.data_length - 1) 0, t⟩ =
      .error .DataBufferLength ∧
    AnimePacketType.try_from ⟨List.replicate (t.data_length + 1) 0, t⟩ =
      .error .DataBufferLength := by
  have hm1 : (List.replicate (t.data_length - 1) 0).length ≠
      t.data_length := by
    rw [List.length_replicate]
    have := data_length_pos t
    omega
  have hp1 : (List.replicate (t.data_length + 1) 0).length ≠
      t.data_length := by
    rw [List.length_replicate]
    omega
  refine ⟨?_, ?_, ?_, ?_, from_vec_mismatch t _ hm1, from_vec_mismatch t _ hp1,
    try_from_mismatch t _ hm1, try_from_mismatch t _ hp1⟩
  · by_cases hl : d.length = t.data_length
    · rw [from_vec_match t d hl]
      exact iff_of_false (fun hh => Except.noConfusion hh) (not_not_intro hl)
    · rw [from_vec_mismatch t d hl]
      exact iff_of_true rfl hl
  · by_cases hl : d.length = t.data_length
    · obtain ⟨pkts, hx⟩ := try_from_match t d hl
      rw [hx]
      exact iff_of_false (fun hh => Except.noConfusion hh) (not_not_intro hl)
    · rw [try_from_mismatch t d hl]
      exact iff_of_true rfl hl
  · intro e
    by_cases hl : d.length = t.data_length
    · left
      rw [from_vec_match t d hl]
      exact fun hh => Except.noConfusion hh
    · by_cases he : e = .DataBufferLength
      · right; exact he
      · left
        rw [from_vec_mismatch t d hl]
        exact fun hh => he (Except.error.inj hh).symm
  · intro e
    by_cases hl : d.length = t.data_length
    · obtain ⟨pkts, hx⟩ := try_from_match t d hl
      left
      rw [hx]
      exact fun hh => Except.noConfusion hh
    · by_cases he : e = .DataBufferLength
      · right; exact he
      · left
        rw [try_from_mismatch t d hl]
        exact fun hh => he (Except.error.inj hh).symm

/-! ## rog-anime: animation scheduler (run_animation) -/

/-- Modelled from the spec: the `Fade` duration policy
(`Fade{in, show, out}`, §3 Data Model); the declaring file
(rog-anime sequences) is not under src/. Durations are nanoseconds. -/
structure Fade where
  fade_in : Nat
  show_for : Option Nat
  fade_out : Nat
  deriving DecidableEq, Repr

/-- Modelled from the spec: `total_fade_time` is the total of the fade-in
and fade-out durations (`fade_in + fade_out`, §4.3). -/
def Fade.total_fade_time (f : Fade) : Nat := f.fade_in + f.fade_out

/-- Modelled from the spec: the duration policy
`{Count(n), Time(ms), Fade{..}, Infinite}` (§3); the declaring file is
not under src/. `Time` carries milliseconds, as in
`Duration::from_millis(time)` of run_animation. -/
inductive AnimTime
  | Time (millis : Nat)
  | Count (times : Nat)
  | Fade (f : Fade)
  | Infinite
  deriving DecidableEq, Repr

/-- Modelled from the spec: an `AnimationFrame` pairs one pixel buffer
with a display delay (§3). Delay in nanoseconds. -/
structure AnimeFrame where
  frame : AnimeDataBuffer
  delay : Nat
  deriving DecidableEq, Repr

/-- Modelled from the spec: an `AnimeGif` animation sequence is an
ordered list of frames plus a duration policy (§3). -/
structure AnimeGif where
  frames : List AnimeFrame
  duration : AnimTime
  deriving DecidableEq, Repr

/-- Modelled from the spec: `total_frame_time` is the sum of per-loop
frame delays, multiplied by the loop count under the Count policy
(`Count → sum of per-loop frame delays × count`, §4.3). -/
def AnimeGif.total_frame_time (g : AnimeGif) : Nat :=
  let sum := (g.frames.map (fun f => f.delay)).sum
  match g.duration with
  | .Count n => sum * n
  | _ => sum

/-- Embedding of the run-time computation at the top of `run_animation`
(rog-anime/src/data.rs): run_time starts as total_frame_time; for Fade
it becomes show_for + total_fade_time when show_for is set, plus a 250ms
buffer, with timed = true; for Time it is the given milliseconds with
timed = true; otherwise timed = false. Returns (run_time in
nanoseconds, timed). -/
def runAnimationRunTime (g : AnimeGif) : Nat × Bool :=
  match g.duration with
  | .Fade f =>
      let base :=
        match f.show_for with
        | some middle => middle + f.total_fade_time
        | none => g.total_frame_time
      (base + 250000000, true)
  | .Time ms => (ms * 1000000, true)
  | _ => (g.total_frame_time, false)

/-- Embedding of the fade set-up of `run_animation`: fade_in and
fade_out are taken from the Fade policy, and if total_fade_time exceeds
run_time both are replaced by run_time / 2 (the f32 step rates of the
source, 1.0 / fade.seconds, are recomputed from exactly these returned
durations and are not modelled further). Returns (fade_in, fade_out)
after the clamp; (0, 0) for non-Fade policies, matching the source's
zero initial values. -/
def runAnimationFades (g : AnimeGif) : Nat × Nat :=
  match g.duration with
  | .Fade f =>
      let run_time := (runAnimationRunTime g).1
      if f.total_fade_time > run_time then (run_time / 2, run_time / 2)
      else (f.fade_in, f.fade_out)
  | _ => (0, 0)

/-- Embedding of the inner `for frame in frames.frames()` pass of
`run_animation`, specialized to a non-Fade, non-timed policy (for Count
the fade branch and the timed check are inactive): each frame invokes
the callback, modelled as a function of the overall invocation index and
of the frame buffer (which captures any deterministic stateful closure);
a result of Ok(true) exits immediately. Returns (total invocation count
so far, exited-early flag). -/
def runFramesOnce (cb : Nat → AnimeDataBuffer → Except AnimeError Bool) :
    List AnimeFrame → Nat → Nat × Bool
  | [], calls => (calls, false)
  | f :: fs, calls =>
      match cb calls f.frame with
      | .ok true => (calls + 1, true)
      | _ => runFramesOnce cb fs (calls + 1)

/-- Embedding of the `'animation: loop` of `run_animation` under the
Count policy: run a full pass; stop if the callback asked to exit;
otherwise increment count and stop once count ≥ times. Returns the
total number of callback invocations. -/
def runAnimationCountLoop (cb : Nat → AnimeDataBuffer → Except AnimeError Bool)
    (frames : List AnimeFrame) (times count calls : Nat) : Nat :=
  let pass := runFramesOnce cb frames calls
  if pass.2 then pass.1
  else if times ≤ count + 1 then pass.1
  else runAnimationCountLoop cb frames times (count + 1) pass.1
termination_by times - count
decreasing_by omega

/-- Embedding of `run_animation` restricted to the Count duration policy
(timed = false there, and the fade branch never runs since the duration
is not Fade): the number of callback invocations performed. -/
def runAnimationCount (cb : Nat → AnimeDataBuffer → Except AnimeError Bool)
    (frames : List AnimeFrame) (times : Nat) : Nat :=
  runAnimationCountLoop cb frames times 0 0

theorem runFramesOnce_cons_not (cb : Nat → AnimeDataBuffer →
    Except AnimeError Bool) (f : AnimeFrame) (fs : List AnimeFrame)
    (calls : Nat) (h : cb calls f.frame ≠ .ok true) :
    runFramesOnce cb (f :: fs) calls = runFramesOnce cb fs (calls + 1) := by
  conv_lhs => rw [runFramesOnce]
  split
  · next heq => exact absurd heq h
  · rfl

theorem runFramesOnce_cons_true (cb : Nat → AnimeDataBuffer →
    Except AnimeError Bool) (f : AnimeFrame) (fs : List AnimeFrame)
    (calls : Nat) (h : cb calls f.frame = .ok true) :
    runFramesOnce cb (f :: fs) calls = (calls + 1, true) := by
  conv_lhs => rw [runFramesOnce, h]

theorem runAnimationCountLoop_eq (cb : Nat → AnimeDataBuffer →
    Except AnimeError Bool) (frames : List AnimeFrame)
    (times count calls : Nat) :
    runAnimationCountLoop cb frames times count calls =
      let pass := runFramesOnce cb frames calls
      if pass.2 then pass.1
      else if times ≤ count + 1 then pass.1
      else runAnimationCountLoop cb frames times (count + 1) pass.1 := by
  rw [runAnimationCountLoop]

/-- C5: under Count(2) with a 3-frame sequence, a callback that never
returns Ok(true) is invoked exactly 6 times; a callback that returns
Ok(true) on its second invocation (and not on its first) stops the loop
after exactly 2 invocations. -/
theorem run_animation_count_invocations
    (cb : Nat → AnimeDataBuffer → Except AnimeError Bool)
    (frames : List AnimeFrame) (h3 : frames.length = 3) :
    ((∀ i b, cb i b ≠ .ok true) → runAnimationCount cb frames 2 = 6) ∧
    ((∀ b, cb 0 b ≠ .ok true) → (∀ b, cb 1 b = .ok true) →
      runAnimationCount cb frames 2 = 2) := by
  obtain ⟨x, y, z, rfl⟩ := List.length_eq_three.mp h3
  constructor
  · intro hnever
    have p1 : runFramesOnce cb [x, y, z] 0 = (3, false) := by
      rw [runFramesOnce_cons_not _ _ _ _ (hnever 0 _),
        runFramesOnce_cons_not _ _ _ _ (hnever 1 _),
        runFramesOnce_cons_not _ _ _ _ (hnever 2 _)]
      rfl
    have p2 : runFramesOnce cb [x, y, z] 3 = (6, false) := by
      rw [runFramesOnce_cons_not _ _ _ _ (hnever 3 _),
        runFramesOnce_cons_not _ _ _ _ (hnever 4 _),
        runFramesOnce_cons_not _ _ _ _ (hnever 5 _)]
      rfl
    unfold runAnimationCount
    rw [runAnimationCountLoop_eq, p1]
    norm_num
    rw [runAnimationCountLoop_eq, p2]
    norm_num
  · intro h0 h1
    have p1 : runFramesOnce cb [x, y, z] 0 = (2, true) := by
      rw [runFramesOnce_cons_not _ _ _ _ (h0 _),
        runFramesOnce_cons_true _ _ _ _ (h1 _)]
    unfold runAnimationCount
    rw [runAnimationCountLoop_eq, p1]
    norm_num

/-- Witness for C5: three concrete frames; with the constant Ok(false)
callback the loop performs 6 invocations. -/
theorem run_animation_count_invocations_witness :
    (List.replicate 3
      (⟨AnimeDataBuffer.new .GA401, 0⟩ : AnimeFrame)).length = 3 ∧
    runAnimationCount (fun _ _ => (.ok false : Except AnimeError Bool))
      (List.replicate 3 ⟨AnimeDataBuffer.new .GA401, 0⟩) 2 = 6 :=
  ⟨rfl,
   (run_animation_count_invocations _ _ (by rfl)).1
     (fun _ _ hh => Bool.noConfusion (Except.ok.inj hh))⟩

/-- C6 counterexample: for show_for = 1s, fade_in = 5s, fade_out = 5s
(nanoseconds), run_time is 1s + (5s + 5s) + 250ms = 11.25s, the clamp
condition total_fade_time > run_time is false, and the fades stay at
(5s, 5s) instead of being clamped to run_time / 2 = 5.625s each — the
claim asserts the clamp applies at this input, but it does not. -/
theorem run_animation_fade_clamp_counterexample :
    (runAnimationRunTime
      ⟨[], .Fade ⟨5000000000, some 1000000000, 5000000000⟩⟩).1 =
      11250000000 ∧
    Fade.total_fade_time ⟨5000000000, some 1000000000, 5000000000⟩ =
      10000000000 ∧
    ¬ (Fade.total_fade_time ⟨5000000000, some 1000000000, 5000000000⟩ >
      (runAnimationRunTime
        ⟨[], .Fade ⟨5000000000, some 1000000000, 5000000000⟩⟩).1) ∧
    runAnimationFades
      ⟨[], .Fade ⟨5000000000, some 1000000000, 5000000000⟩⟩ =
      (5000000000, 5000000000) ∧
    runAnimationFades
      ⟨[], .Fade ⟨5000000000, some 1000000000, 5000000000⟩⟩ ≠
      (11250000000 / 2, 11250000000 / 2) := by
  refine ⟨rfl, rfl, by decide, rfl, by decide⟩

/-- C6 amended: in run_animation with a Fade policy the fades are
clamped to run_time / 2 each exactly when fade_in + fade_out exceeds the
computed run_time; since run_time already includes show_for +
total_fade_time + 250ms whenever show_for is set, the clamp never
applies in that case (in particular not for show_for = 1s, fade_in = 5s,
fade_out = 5s); it can apply only when show_for is None, where run_time
is total_frame_time + 250ms. -/
theorem run_animation_fade_clamp (f : Fade) (frames : List AnimeFrame) :
    (runAnimationFades ⟨frames, .Fade f⟩ =
      if f.total_fade_time > (runAnimationRunTime ⟨frames, .Fade f⟩).1 then
        ((runAnimationRunTime ⟨frames, .Fade f⟩).1 / 2,
         (runAnimationRunTime ⟨frames, .Fade f⟩).1 / 2)
      else (f.fade_in, f.fade_out)) ∧
    (∀ m, f.show_for = some m →
      runAnimationFades ⟨frames, .Fade f⟩ = (f.fade_in, f.fade_out)) ∧
    (f.show_for = none →
      f.total_fade_time >
        (AnimeGif.total_frame_time ⟨frames, .Fade f⟩) + 250000000 →
      runAnimationFades ⟨frames, .Fade f⟩ =
        ((runAnimationRunTime ⟨frames, .Fade f⟩).1 / 2,
         (runAnimationRunTime ⟨frames, .Fade f⟩).1 / 2)) := by
  refine ⟨rfl, ?_, ?_⟩
  · intro m hm
    unfold runAnimationFades runAnimationRunTime
    dsimp only
    rw [hm]
    dsimp only
    rw [if_neg (by unfold Fade.total_fade_time; omega)]
  · intro hn hgt
    unfold runAnimationFades runAnimationRunTime
    dsimp only
    rw [hn]
    dsimp only
    rw [if_pos hgt]

/-- Witness for C6: applying the amended theorem at the concrete 1s/5s/5s
input shows the fades are left at (5s, 5s). -/
theorem run_animation_fade_clamp_witness :
    runAnimationFades
      ⟨[], .Fade ⟨5000000000, some 1000000000, 5000000000⟩⟩ =
      (5000000000, 5000000000) :=
  (run_animation_fade_clamp ⟨5000000000, some 1000000000, 5000000000⟩
    []).2.1 1000000000 rfl

/-! ## rog-profiles: fan curve profile store -/

/-- Modelled from the spec: the profile error enum
(rog-profiles/src/error.rs is not under src/); the spec's taxonomy (§7)
names NotSupported as the dominant failure, parse errors, and
device-attribute I/O errors propagated verbatim. -/
inductive ProfileError
  | NotSupported
  | ParseProfileName
  | IoFailure
  deriving DecidableEq, Repr

/-- Embedding of `FanCurvePU` (rog-profiles/src/lib.rs). -/
inductive FanCurvePU
  | CPU
  | GPU
  | MID
  deriving DecidableEq, Repr, Fintype

/-- Modelled from the spec: the thermal policy enum
(rog_platform::platform::PlatformPolicy is not under src/): one of
Quiet / Balanced / Performance. -/
inductive PlatformPolicy
  | Balanced
  | Performance
  | Quiet
  deriving DecidableEq, Repr, Fintype

/-- Modelled from the spec: `CurveData` (rog-profiles/src/fan_curve_set.rs
is not under src/): a fan tag, temperature sample points, PWM
percentages, and an enabled flag (§3). -/
structure CurveData where
  fan : FanCurvePU
  temp : List Nat
  pwm : List Nat
  enabled : Bool
  deriving DecidableEq, Repr

/-- Embedding of `FanCurveProfiles`: one curve list per policy. -/
structure FanCurveProfiles where
  balanced : List CurveData
  performance : List CurveData
  quiet : List CurveData
  deriving DecidableEq, Repr

/-- Embedding of `FanCurveProfiles::get_fan_curves_for`. -/
def FanCurveProfiles.get_fan_curves_for (p : FanCurveProfiles)
    (name : PlatformPolicy) : List CurveData :=
  match name with
  | .Balanced => p.balanced
  | .Performance => p.performance
  | .Quiet => p.quiet

/-- Embedding of the `for fan in fans { fan.write_to_device(device)?; }`
loop of `write_profile_curve_to_platform`: the per-curve device write
(`CurveData::write_to_device`, whose body lives in fan_curve_set.rs,
not under src/) is a parameter; the loop attempts it for each curve in
order and stops at the first error, which `?` propagates. Returns the
list of curves for which the write was invoked, with the final result. -/
def writeCurvesLoop (writeDev : CurveData → Except ProfileError Unit) :
    List CurveData → List CurveData × Except ProfileError Unit
  | [] => ([], .ok ())
  | c :: cs =>
      match writeDev c with
      | .ok _ =>
          let r := writeCurvesLoop writeDev cs
          (c :: r.1, r.2)
      | .error e => ([c], .error e)

/-- Embedding of `FanCurveProfiles::write_profile_curve_to_platform`:
selects the policy's curve list and runs the write loop over it (every
entry, with no test of the `enabled` flag). -/
def FanCurveProfiles.write_profile_curve_to_platform
    (p : FanCurveProfiles) (profile : PlatformPolicy)
    (writeDev : CurveData → Except ProfileError Unit) :
    List CurveData × Except ProfileError Unit :=
  writeCurvesLoop writeDev (p.get_fan_curves_for profile)

/-- Embedding of the `for this_curve in ... { if this_curve.fan ==
curve.fan { *this_curve = curve; break; } }` loop of `save_fan_curve`:
replace the first entry with a matching fan tag, leave everything else
unchanged. -/
def replaceFirstByFan (curve : CurveData) : List CurveData → List CurveData
  | [] => []
  | c :: cs =>
      if c.fan = curve.fan then curve :: cs
      else c :: replaceFirstByFan curve cs

/-- Embedding of `FanCurveProfiles::save_fan_curve`: replaces within the
selected policy's list only, and always returns Ok. -/
def FanCurveProfiles.save_fan_curve (p : FanCurveProfiles)
    (curve : CurveData) (profile : PlatformPolicy) :
    Except ProfileError FanCurveProfiles :=
  match profile with
  | .Balanced => .ok { p with balanced := replaceFirstByFan curve p.balanced }
  | .Performance =>
      .ok { p with performance := replaceFirstByFan curve p.performance }
  | .Quiet => .ok { p with quiet := replaceFirstByFan curve p.quiet }

theorem writeCurvesLoop_all_ok (w : CurveData → Except ProfileError Unit) :
    ∀ l : List CurveData, (∀ c ∈ l, w c = .ok ()) →
      writeCurvesLoop w l = (l, .ok ()) := by
  intro l
  induction l with
  | nil => intro _; rfl
  | cons c cs ih =>
      intro h
      have hc : w c = .ok () := h c (List.mem_cons_self c cs)
      have hrest := ih fun c' hc' => h c' (List.mem_cons_of_mem c hc')
      conv_lhs => rw [writeCurvesLoop, hc]
      rw [hrest]

theorem writeCurvesLoop_first_error (w : CurveData → Except ProfileError Unit)
    (c : CurveData) (e : ProfileError) (hc : w c = .error e) :
    ∀ cs1 : List CurveData, ∀ cs2 : List CurveData,
      (∀ c' ∈ cs1, w c' = .ok ()) →
      writeCurvesLoop w (cs1 ++ c :: cs2) = (cs1 ++ [c], .error e) := by
  intro cs1
  induction cs1 with
  | nil =>
      intro cs2 _
      conv_lhs => rw [List.nil_append, writeCurvesLoop, hc]
      rfl
  | cons c1 cs ih =>
      intro cs2 h
      have hc1 : w c1 = .ok () := h c1 (List.mem_cons_self c1 cs)
      have hrest := ih cs2 fun c' hc' => h c' (List.mem_cons_of_mem c1 hc')
      conv_lhs => rw [List.cons_append, writeCurvesLoop, hc1]
      rw [hrest]
      rfl

/-- C7: write_profile_curve_to_platform invokes the per-curve device
write for every curve entry stored under the policy — the invoked list
is the stored list itself, whatever each entry's enabled flag — when no
write fails, and when a write fails the invocations stop there and the
first error is returned. -/
theorem write_profile_curve_writes_all
    (w : CurveData → Except ProfileError Unit) (p : FanCurveProfiles)
    (profile : PlatformPolicy) :
    ((∀ c ∈ p.get_fan_curves_for profile, w c = .ok ()) →
      p.write_profile_curve_to_platform profile w =
        (p.get_fan_curves_for profile, .ok ())) ∧
    (∀ cs1 c cs2 e, p.get_fan_curves_for profile = cs1 ++ c :: cs2 →
      (∀ c' ∈ cs1, w c' = .ok ()) → w c = .error e →
      p.write_profile_curve_to_platform profile w =
        (cs1 ++ [c], .error e)) := by
  constructor
  · intro h
    unfold FanCurveProfiles.write_profile_curve_to_platform
    exact writeCurvesLoop_all_ok w _ h
  · intro cs1 c cs2 e hsplit h1 hce
    unfold FanCurveProfiles.write_profile_curve_to_platform
    rw [hsplit]
    exact writeCurvesLoop_first_error w c e hce cs1 cs2 h1

/-- Witness for C7: a two-curve list, one of them disabled; with the
always-Ok device write both entries are invoked. -/
theorem write_profile_curve_writes_all_witness :
    FanCurveProfiles.write_profile_curve_to_platform
      ⟨[⟨.CPU, [], [], true⟩, ⟨.GPU, [], [], false⟩], [], []⟩
      .Balanced (fun _ => .ok ()) =
      ([⟨.CPU, [], [], true⟩, ⟨.GPU, [], [], false⟩], .ok ()) :=
  (write_profile_curve_writes_all (fun _ => .ok ())
    ⟨[⟨.CPU, [], [], true⟩, ⟨.GPU, [], [], false⟩], [], []⟩ .Balanced).1
    (fun _ _ => rfl)

theorem replaceFirstByFan_not_found (curve : CurveData) :
    ∀ l : List CurveData, (∀ c ∈ l, c.fan ≠ curve.fan) →
      replaceFirstByFan curve l = l := by
  intro l
  induction l with
  | nil => intro _; rfl
  | cons c cs ih =>
      intro h
      have hc : c.fan ≠ curve.fan := h c (List.mem_cons_self c cs)
      have hrest := ih fun c' hc' => h c' (List.mem_cons_of_mem c hc')
      unfold replaceFirstByFan
      rw [if_neg hc, hrest]

theorem replaceFirstByFan_found (curve c : CurveData)
    (hc : c.fan = curve.fan) :
    ∀ cs1 : List CurveData, ∀ cs2 : List CurveData,
      (∀ c' ∈ cs1, c'.fan ≠ curve.fan) →
      replaceFirstByFan curve (cs1 ++ c :: cs2) = cs1 ++ curve :: cs2 := by
  intro cs1
  induction cs1 with
  | nil =>
      intro cs2 _
      rw [List.nil_append]
      unfold replaceFirstByFan
      rw [if_pos hc, List.nil_append]
  | cons c1 cs ih =>
      intro cs2 h
      have hc1 : c1.fan ≠ curve.fan := h c1 (List.mem_cons_self c1 cs)
      have hrest := ih cs2 fun c' hc' => h c' (List.mem_cons_of_mem c1 hc')
      rw [List.cons_append]
      unfold replaceFirstByFan
      rw [if_neg hc1, hrest, List.cons_append]

/-- C8: save_fan_curve always returns Ok; with no matching fan tag in
the selected policy's list the whole store is unchanged, and with a
match exactly the first matching entry is replaced by the given curve
while every other entry and the other policies' lists are unchanged. -/
theorem save_fan_curve_replaces_first (p : FanCurveProfiles)
    (curve : CurveData) (profile : PlatformPolicy) :
    ∃ p', p.save_fan_curve curve profile = .ok p' ∧
      ((∀ c ∈ p.get_fan_curves_for profile, c.fan ≠ curve.fan) → p' = p) ∧
      (∀ cs1 c cs2, p.get_fan_curves_for profile = cs1 ++ c :: cs2 →
        (∀ c' ∈ cs1, c'.fan ≠ curve.fan) → c.fan = curve.fan →
        p'.get_fan_curves_for profile = cs1 ++ curve :: cs2) ∧
      (∀ q : PlatformPolicy, q ≠ profile →
        p'.get_fan_curves_for q = p.get_fan_curves_for q) := by
  cases profile with
  | Balanced =>
      refine ⟨{ p with balanced := replaceFirstByFan curve p.balanced },
        rfl, ?_, ?_, ?_⟩
      · intro h
        rw [replaceFirstByFan_not_found curve p.balanced h]
      · intro cs1 c cs2 hsplit h1 hc
        show replaceFirstByFan curve p.balanced = _
        rw [show p.balanced = cs1 ++ c :: cs2 from hsplit]
        exact replaceFirstByFan_found curve c hc cs1 cs2 h1
      · intro q hq
        cases q with
        | Balanced => exact absurd rfl hq
        | Performance => rfl
        | Quiet => rfl
  | Performance =>
      refine ⟨{ p with performance := replaceFirstByFan curve p.performance },
        rfl, ?_, ?_, ?_⟩
      · intro h
        rw [replaceFirstByFan_not_found curve p.performance h]
      · intro cs1 c cs2 hsplit h1 hc
        show replaceFirstByFan curve p.performance = _
        rw [show p.performance = cs1 ++ c :: cs2 from hsplit]
        exact replaceFirstByFan_found curve c hc cs1 cs2 h1
      · intro q hq
        cases q with
        | Balanced => rfl
        | Performance => exact absurd rfl hq
        | Quiet => rfl
  | Quiet =>
      refine ⟨{ p with quiet := replaceFirstByFan curve p.quiet },
        rfl, ?_, ?_, ?_⟩
      · intro h
        rw [replaceFirstByFan_not_found curve p.quiet h]
      · intro cs1 c cs2 hsplit h1 hc
        show replaceFirstByFan curve p.quiet = _
        rw [show p.quiet = cs1 ++ c :: cs2 from hsplit]
        exact replaceFirstByFan_found curve c hc cs1 cs2 h1
      · intro q hq
        cases q with
        | Balanced => rfl
        | Performance => rfl
        | Quiet => exact absurd rfl hq

/-! ## rog-aura: Colour::from_str (hex colour parsing) -/

/-- Modelled from the spec: the rog-aura error enum (its error.rs is not
under src/); the spec's taxonomy (§7) names ParseColour, ParseSpeed and
ParseDirection for malformed textual input. -/
inductive AuraError
  | ParseColour
  | ParseSpeed
  | ParseDirection
  deriving DecidableEq, Repr

/-- The UTF-8 byte length of a Rust string modelled as its list of
scalar values: `s.len()`. -/
def utf8Len (s : List Char) : Nat := (s.map Char.utf8Size).sum

/-- Dropping the first n BYTES of a UTF-8 string: none when byte n is
not a character boundary or past the end (where Rust byte slicing
panics). -/
def dropBytes : List Char → Nat → Option (List Char)
  | l, 0 => some l
  | [], _ + 1 => none
  | c :: cs, n + 1 =>
      if c.utf8Size ≤ n + 1 then dropBytes cs (n + 1 - c.utf8Size)
      else none

/-- Taking the first n BYTES of a UTF-8 string: none when byte n is not
a character boundary or past the end. -/
def takeBytes : List Char → Nat → Option (List Char)
  | _, 0 => some []
  | [], _ + 1 => none
  | c :: cs, n + 1 =>
      if c.utf8Size ≤ n + 1 then
        (takeBytes cs (n + 1 - c.utf8Size)).map (c :: ·)
      else none

/-- Model of the Rust byte slice `&s[a..b]` for a ≤ b: none models the
panic on a non-boundary or out-of-range byte index. -/
def sliceBytes (s : List Char) (a b : Nat) : Option (List Char) :=
  (dropBytes s a).bind fun t => takeBytes t (b - a)

/-- The value of one hexadecimal digit character. -/
def hexVal (c : Char) : Option Nat :=
  if '0' ≤ c ∧ c ≤ '9' then some (c.toNat - '0'.toNat)
  else if 'a' ≤ c ∧ c ≤ 'f' then some (c.toNat - 'a'.toNat + 10)
  else if 'A' ≤ c ∧ c ≤ 'F' then some (c.toNat - 'A'.toNat + 10)
  else none

/-- Model of `u8::from_str_radix(src, 16)`: an empty source fails; a
leading '+' is skipped (but '+' alone fails; '-' is not accepted for an
unsigned type and fails as an invalid digit); then every character must
be a hex digit, accumulated as acc * 16 + d with a checked-overflow
failure past u8::MAX = 255. -/
def fromStrRadix16U8 (src : List Char) : Option Nat :=
  let digits := fun (l : List Char) =>
    if l = [] then none
    else
      l.foldl (fun acc c =>
        acc.bind fun a =>
          (hexVal c).bind fun d =>
            if a * 16 + d ≤ 255 then some (a * 16 + d) else none)
        (some 0)
  match src with
  | [] => none
  | '+' :: rest => if rest = [] then none else digits rest
  | _ => digits src

/-- Outcome of `Colour::from_str`: Ok, a typed error, or a Rust panic. -/
inductive ColourFromStr
  | ok (c : Colour)
  | err (e : AuraError)
  | panic
  deriving DecidableEq, Repr

/-- Embedding of `impl FromStr for Colour`
(rog-aura/src/builtin_modes.rs): if the byte length is under 6 the typed
ParseColour error is returned; otherwise the byte ranges [0,2), [2,4),
[4,6) are sliced in turn (panicking if an index is not a char boundary)
and parsed with from_str_radix(_, 16), each failure mapped to
ParseColour. -/
def Colour.from_str (s : List Char) : ColourFromStr :=
  if utf8Len s < 6 then .err .ParseColour
  else
    match sliceBytes s 0 2 with
    | none => .panic
    | some g1 =>
        match fromStrRadix16U8 g1 with
        | none => .err .ParseColour
        | some r =>
            match sliceBytes s 2 4 with
            | none => .panic
            | some g2 =>
                match fromStrRadix16U8 g2 with
                | none => .err .ParseColour
                | some g =>
                    match sliceBytes s 4 6 with
                    | none => .panic
                    | some g3 =>
                        match fromStrRadix16U8 g3 with
                        | none => .err .ParseColour
                        | some b => .ok ⟨r, g, b⟩

/-- C9: the input "aé2345" has 7 bytes (so it passes the length check)
but byte 2 falls inside the two-byte UTF-8 encoding of 'é', so
`&s[0..2]` panics instead of producing the typed ParseColour error; on
well-formed ASCII inputs the function behaves as specified (Ok for
"ff11dd", ParseColour for a bad digit or a short string). -/
theorem colour_from_str_panics_on_multibyte :
    Colour.from_str ['a', 'é', '2', '3', '4', '5'] = .panic ∧
    utf8Len ['a', 'é', '2', '3', '4', '5'] = 7 ∧
    ¬ utf8Len ['a', 'é', '2', '3', '4', '5'] < 6 ∧
    Colour.from_str ['f', 'f', '1', '1', 'd', 'd'] = .ok ⟨255, 17, 221⟩ ∧
    Colour.from_str ['x', 'f', '1', '1', 'd', 'd'] = .err .ParseColour ∧
    Colour.from_str ['f', 'f', '1'] = .err .ParseColour := by
  decide

end Asusctl
